import Mathlib

/-!
# Verification of `prototype_cv.py`

A shallow embedding of the pricing engine (`calculate_price_options`), the
per-page pixel analysis (`perform_technical_analysis`) and the page-accumulation
loop of `process_document`, together with theorems checking the repository's
specification against this embedding.

Conventions of the embedding:
* Python floats carrying coverage percentages are modelled as rationals `ℚ`
  (every coverage value produced by the program is a ratio of pixel counts
  times 100, hence rational).
* Python `int(x)` (truncation toward zero) is modelled by `pyInt`.
* `uint8` pixel channels are modelled as `Fin 256`; `numpy` subtraction of
  `uint8` arrays wraps modulo 256.
* A caught exception (the `try/except` in `perform_technical_analysis`)
  is modelled by the fieldless constructor `AnalysisResult.failed`,
  mirroring the `{"success": False}` dictionary.
-/

/-- Python `int(x)`: truncation toward zero.  `q.den` is positive, so
T-division of the numerator by the denominator truncates the value of `q`
toward zero. -/
def pyInt (q : ℚ) : Int := Int.tdiv q.num q.den

/-- The dictionary returned by `calculate_price_options`
(source lines 54-61). -/
structure PricingBreakdown where
  paper_price : Int
  tier_name : String
  bw_ink_price : Int
  color_ink_price : Int
  final_bw_price : Int
  final_color_price : Int
deriving DecidableEq, Repr

/-- The `if/elif` cascade of source lines 20-48: starting from the defaults
`tier_name = "N/A"`, `bw_ink_price = 0`, `color_ink_price = 0`, the first
matching branch overwrites them.  Returns
`(tier_name, bw_ink_price, color_ink_price)`. -/
def tierSelect (c : ℚ) : String × ℚ × ℚ :=
  if 0 ≤ c ∧ c ≤ 25 then ("Tier 1: Light (0-25%)", 1, 2)
  else if 25 < c ∧ c ≤ 50 then ("Tier 2: Medium (26-50%)", 2, 4)
  else if 50 < c ∧ c ≤ 75 then ("Tier 3: Heavy (51-75%)", 3, 6)
  else if 75 < c then ("Tier 4: Dense/Full (76-100%)", 4, 9)
  else ("N/A", 0, 0)

/-- `calculate_price_options` (source lines 12-61).  `PAPER_PRICE = 1.00`;
the final prices are `int(PAPER_PRICE + ink)` and every returned numeric
field goes through `int(...)`. -/
def calculate_price_options (coverage_percentage : ℚ) : PricingBreakdown :=
  let PAPER_PRICE : ℚ := 1
  let t := tierSelect coverage_percentage
  { paper_price := pyInt PAPER_PRICE
    tier_name := t.1
    bw_ink_price := pyInt t.2.1
    color_ink_price := pyInt t.2.2
    final_bw_price := pyInt (PAPER_PRICE + t.2.1)
    final_color_price := pyInt (PAPER_PRICE + t.2.2) }

/-- Guard of the Tier 1 branch (source line 27). -/
def tier1Cond (c : ℚ) : Prop := 0 ≤ c ∧ c ≤ 25

/-- Guard of the Tier 2 branch (source line 33). -/
def tier2Cond (c : ℚ) : Prop := 25 < c ∧ c ≤ 50

/-- Guard of the Tier 3 branch (source line 39). -/
def tier3Cond (c : ℚ) : Prop := 50 < c ∧ c ≤ 75

/-- Guard of the Tier 4 branch (source line 45). -/
def tier4Cond (c : ℚ) : Prop := 75 < c

/-- One BGR pixel; each channel is a `uint8` value. -/
structure Pixel where
  b : Fin 256
  g : Fin 256
  r : Fin 256
deriving DecidableEq, Repr

/-- An `h × w` image with three `uint8` channels (the buffer handed to
`perform_technical_analysis` after the RGBA/RGB → BGR conversion of source
lines 142-145); `pix i j` is the pixel at row `i`, column `j` (values at
out-of-range indices are ignored by every operation below). -/
structure Image where
  h : Nat
  w : Nat
  pix : Nat → Nat → Pixel

/-- All pixels of the image, row-major. -/
def Image.pixelList (img : Image) : List Pixel :=
  (List.range img.h).flatMap fun i => (List.range img.w).map fun j => img.pix i j

/-- `np.count_nonzero` of a pixelwise boolean map over the whole image. -/
def countPixels (img : Image) (p : Pixel → Bool) : Nat :=
  img.pixelList.countP p

/-- `uint8` subtraction `g - r` of the split channels (source lines 71-72):
`numpy` wraps modulo 256. -/
def gMinusR (px : Pixel) : Nat := (px.g.val + (256 - px.r.val)) % 256

/-- OpenCV `cvtColor(..., COLOR_BGR2GRAY)` on one pixel (source line 75):
the 14-bit fixed-point luminance
`(4899*R + 9617*G + 1868*B + 8192) >> 14`, OpenCV's rounded fixed-point
encoding of `0.299*R + 0.587*G + 0.114*B` for 8-bit data. -/
def bgr2gray (px : Pixel) : Nat :=
  (4899 * px.r.val + 9617 * px.g.val + 1868 * px.b.val + 8192) / 16384

/-- OpenCV `threshold(src, thresh, maxval, THRESH_BINARY_INV)` on one value
(source lines 76-77): `0` where `src > thresh`, else `maxval`. -/
def thresholdBinaryInv (thresh maxval v : Nat) : Nat :=
  if v > thresh then 0 else maxval

/-- The `original_doc_type` values of source line 72. -/
inductive DocType
  | Color
  | BW
deriving DecidableEq, Repr

/-- Return value of `perform_technical_analysis`: either the
`{"success": True, "original_doc_type": ..., "coverage_percentage": ...}`
dictionary, or the bare `{"success": False}` dictionary — the `failed`
constructor carries no further fields, like the dictionary of source
line 94. -/
inductive AnalysisResult
  | ok (original_doc_type : DocType) (coverage_percentage : ℚ)
  | failed
deriving DecidableEq, Repr

/-- `np.count_nonzero(g - r)` of source line 72. -/
def colorPixelCount (img : Image) : Nat :=
  countPixels img fun px => gMinusR px != 0

/-- `content_pixels` of source line 79: the count of nonzero pixels of the
`THRESH_BINARY_INV` thresholded grayscale image. -/
def contentPixelCount (img : Image) : Nat :=
  countPixels img fun px => thresholdBinaryInv 240 255 (bgr2gray px) != 0

/-- `perform_technical_analysis` (source lines 68-94).  For a well-formed
3-channel buffer of this `Image` type the only statement in the `try` block
that can raise is the division `content_pixels / total_pixels` when the
image has no pixels (`ZeroDivisionError`); the `except` clause then returns
`{"success": False}`, modelled by `AnalysisResult.failed`.  The zero test
is hoisted in front here; the doc-type and count computations preceding the
division in the source are pure, so discarding them on the failure path is
observationally equivalent. -/
def perform_technical_analysis (img : Image) : AnalysisResult :=
  if img.h * img.w = 0 then AnalysisResult.failed
  else
    AnalysisResult.ok
      (if 0 < colorPixelCount img then DocType.Color else DocType.BW)
      ((contentPixelCount img : ℚ) / ((img.h * img.w : Nat) : ℚ) * 100)

/-- The ink-pixel count following the spec's words — luminance *strictly
below* 240 counts as ink — for comparison with `contentPixelCount`, which
follows the source. -/
def specInkCountLtThreshold (img : Image) : Nat :=
  countPixels img fun px => decide (bgr2gray px < 240)

/-- A 1×1 image whose single pixel has luminance exactly 240. -/
def gray240Image : Image := ⟨1, 1, fun _ _ => ⟨240, 240, 240⟩⟩

/-- The all-white pixel (maximum luminance 255). -/
def whitePixel : Pixel := ⟨255, 255, 255⟩

/-- The all-black pixel (luminance 0). -/
def blackPixel : Pixel := ⟨0, 0, 0⟩

/-- A 1×1 all-white image. -/
def white1 : Image := ⟨1, 1, fun _ _ => whitePixel⟩

/-- A 1×1 all-black image. -/
def black1 : Image := ⟨1, 1, fun _ _ => blackPixel⟩

/-- An image with no pixels (`total_pixels = 0`). -/
def emptyImage : Image := ⟨0, 0, fun _ _ => whitePixel⟩

/-- A 1×1 pure-green image: its single pixel has `g = 255` and `r = 0`. -/
def greenImage : Image := ⟨1, 1, fun _ _ => ⟨0, 255, 0⟩⟩

/-- The `tech_results.get("success")` check of source line 151. -/
def analysisSuccess : AnalysisResult → Bool
  | AnalysisResult.ok _ _ => true
  | AnalysisResult.failed => false

/-- One iteration of the page loop of `process_document` (source lines
131-174): a failed page is skipped by the `continue` of line 153; a
successful page adds its final prices to the two grand totals
(lines 173-174). -/
def pageStep (acc : Int × Int) (r : AnalysisResult) : Int × Int :=
  match r with
  | AnalysisResult.failed => acc
  | AnalysisResult.ok _ cov =>
      (acc.1 + (calculate_price_options cov).final_bw_price,
       acc.2 + (calculate_price_options cov).final_color_price)

/-- The final report of `process_document` (source lines 191-198). -/
structure RunReport where
  grand_total_bw : Int
  grand_total_color : Int
  total_pages : Nat
deriving DecidableEq, Repr

/-- The accumulation part of `process_document` (source lines 125-198),
indexed by the list of per-page analysis outcomes: grand totals start at
`(0, 0)` and are folded over the pages; line 195 reports `total_pages`, the
page count of the PDF, as "Total Pages Processed". -/
def process_document_report (pages : List AnalysisResult) : RunReport :=
  let totals := pages.foldl pageStep (0, 0)
  { grand_total_bw := totals.1
    grand_total_color := totals.2
    total_pages := pages.length }

-- Helper lemmas about the pixel-counting primitives.

theorem mem_pixelList {img : Image} {px : Pixel} :
    px ∈ img.pixelList ↔ ∃ i < img.h, ∃ j < img.w, img.pix i j = px := by
  simp [Image.pixelList]

theorem length_pixelList (img : Image) :
    img.pixelList.length = img.h * img.w := by
  unfold Image.pixelList
  rw [List.length_flatMap]
  rw [show (List.length ∘ fun i => List.map (fun j => img.pix i j)
      (List.range img.w)) = fun _ => img.w by
    funext i
    simp]
  rw [List.map_const', List.sum_replicate, smul_eq_mul, List.length_range]

theorem gMinusR_eq_zero_iff (px : Pixel) : gMinusR px = 0 ↔ px.g = px.r := by
  have hg := px.g.isLt
  have hr := px.r.isLt
  rw [Fin.ext_iff]
  unfold gMinusR
  omega

theorem countPixels_pos_iff (img : Image) (p : Pixel → Bool) :
    0 < countPixels img p ↔
      ∃ i < img.h, ∃ j < img.w, p (img.pix i j) = true := by
  unfold countPixels
  rw [List.countP_pos_iff]
  constructor
  · rintro ⟨px, hmem, hp⟩
    obtain ⟨i, hi, j, hj, hpx⟩ := mem_pixelList.mp hmem
    exact ⟨i, hi, j, hj, hpx ▸ hp⟩
  · rintro ⟨i, hi, j, hj, hp⟩
    exact ⟨img.pix i j, mem_pixelList.mpr ⟨i, hi, j, hj, rfl⟩, hp⟩

theorem countPixels_congr (img : Image) {p q : Pixel → Bool}
    (h : ∀ px, p px = q px) : countPixels img p = countPixels img q := by
  unfold countPixels
  exact List.countP_congr fun px _ => by rw [h px]

theorem thresholdBinaryInv_ne_zero (v : Nat) :
    (thresholdBinaryInv 240 255 v != 0) = decide (v ≤ 240) := by
  by_cases hv : 240 < v <;> simp [thresholdBinaryInv, hv] <;> omega

theorem gMinusR_bne_iff (px : Pixel) :
    ((gMinusR px != 0) = true) ↔ px.g ≠ px.r := by
  rw [bne_iff_ne]
  exact not_congr (gMinusR_eq_zero_iff px)

theorem color_count_pos_iff (img : Image) :
    0 < colorPixelCount img ↔
      ∃ i < img.h, ∃ j < img.w, (img.pix i j).g ≠ (img.pix i j).r := by
  rw [colorPixelCount, countPixels_pos_iff]
  simp only [gMinusR_bne_iff]

theorem analysis_ok_inv (img : Image) (t : DocType) (c : ℚ)
    (hok : perform_technical_analysis img = AnalysisResult.ok t c) :
    img.h * img.w ≠ 0 ∧
    t = (if 0 < colorPixelCount img then DocType.Color else DocType.BW) ∧
    c = (contentPixelCount img : ℚ) / ((img.h * img.w : Nat) : ℚ) * 100 := by
  unfold perform_technical_analysis at hok
  by_cases htot : img.h * img.w = 0
  · rw [if_pos htot] at hok
    exact absurd hok (by simp)
  · rw [if_neg htot] at hok
    injection hok with h1 h2
    exact ⟨htot, h1.symm, h2.symm⟩

theorem gray240_analysis :
    perform_technical_analysis gray240Image = AnalysisResult.ok DocType.BW 100 := by
  have hcolor : colorPixelCount gray240Image = 0 := by
    norm_num [colorPixelCount, countPixels, Image.pixelList, gray240Image,
      List.range_succ, List.range_zero, gMinusR, List.countP_cons,
      List.countP_nil]
  have hcontent : contentPixelCount gray240Image = 1 := by
    norm_num [contentPixelCount, countPixels, Image.pixelList, gray240Image,
      List.range_succ, List.range_zero, thresholdBinaryInv, bgr2gray,
      List.countP_cons, List.countP_nil]
    decide
  unfold perform_technical_analysis
  rw [hcolor, hcontent]
  norm_num [gray240Image]

theorem greenImage_analysis :
    perform_technical_analysis greenImage = AnalysisResult.ok DocType.Color 100 := by
  have hcolor : colorPixelCount greenImage = 1 := by
    norm_num [colorPixelCount, countPixels, Image.pixelList, greenImage,
      List.range_succ, List.range_zero, gMinusR, List.countP_cons,
      List.countP_nil]
    decide
  have hcontent : contentPixelCount greenImage = 1 := by
    norm_num [contentPixelCount, countPixels, Image.pixelList, greenImage,
      List.range_succ, List.range_zero, thresholdBinaryInv, bgr2gray,
      List.countP_cons, List.countP_nil]
    decide
  unfold perform_technical_analysis
  rw [hcolor, hcontent]
  norm_num [greenImage]

theorem foldl_pageStep_filter (pages : List AnalysisResult) :
    ∀ acc : Int × Int,
      pages.foldl pageStep acc =
        (pages.filter analysisSuccess).foldl pageStep acc := by
  induction pages with
  | nil => intro acc; rfl
  | cons r tl ih =>
    intro acc
    cases r with
    | ok t cov => simp only [List.foldl_cons, List.filter_cons_of_pos,
        analysisSuccess, ih]
    | failed =>
      rw [List.foldl_cons, List.filter_cons_of_neg (by simp [analysisSuccess])]
      rw [show pageStep acc AnalysisResult.failed = acc from rfl]
      exact ih acc


/-- C1: on [0,100] the four tier guards cover every value, are pairwise
exclusive (boundaries belong to the lower tier since each guard's lower
bound is strict), `calculate_price_options` never falls through to "N/A",
and the seven boundary evaluations from the spec hold with the stated
tiers and final prices. -/
theorem tiers_partition_and_boundaries :
    (∀ c : ℚ, 0 ≤ c → c ≤ 100 →
      (tier1Cond c ∨ tier2Cond c ∨ tier3Cond c ∨ tier4Cond c) ∧
      ¬ (tier1Cond c ∧ tier2Cond c) ∧ ¬ (tier1Cond c ∧ tier3Cond c) ∧
      ¬ (tier1Cond c ∧ tier4Cond c) ∧ ¬ (tier2Cond c ∧ tier3Cond c) ∧
      ¬ (tier2Cond c ∧ tier4Cond c) ∧ ¬ (tier3Cond c ∧ tier4Cond c) ∧
      (calculate_price_options c).tier_name ≠ "N/A") ∧
    calculate_price_options 0 = ⟨1, "Tier 1: Light (0-25%)", 1, 2, 2, 3⟩ ∧
    calculate_price_options 25 = ⟨1, "Tier 1: Light (0-25%)", 1, 2, 2, 3⟩ ∧
    calculate_price_options (250001/10000) =
      ⟨1, "Tier 2: Medium (26-50%)", 2, 4, 3, 5⟩ ∧
    calculate_price_options 50 = ⟨1, "Tier 2: Medium (26-50%)", 2, 4, 3, 5⟩ ∧
    calculate_price_options 75 = ⟨1, "Tier 3: Heavy (51-75%)", 3, 6, 4, 7⟩ ∧
    calculate_price_options (750001/10000) =
      ⟨1, "Tier 4: Dense/Full (76-100%)", 4, 9, 5, 10⟩ ∧
    calculate_price_options 100 =
      ⟨1, "Tier 4: Dense/Full (76-100%)", 4, 9, 5, 10⟩ := by
  refine ⟨?_, ?_, ?_, ?_, ?_, ?_, ?_, ?_⟩
  · intro c h0 h100
    unfold tier1Cond tier2Cond tier3Cond tier4Cond
    refine ⟨?_, ?_, ?_, ?_, ?_, ?_, ?_, ?_⟩
    · rcases le_or_lt c 25 with h | h
      · exact Or.inl ⟨h0, h⟩
      rcases le_or_lt c 50 with h2 | h2
      · exact Or.inr (Or.inl ⟨h, h2⟩)
      rcases le_or_lt c 75 with h3 | h3
      · exact Or.inr (Or.inr (Or.inl ⟨h2, h3⟩))
      · exact Or.inr (Or.inr (Or.inr h3))
    · rintro ⟨⟨_, a⟩, b, _⟩; linarith
    · rintro ⟨⟨_, a⟩, b, _⟩; linarith
    · rintro ⟨⟨_, a⟩, b⟩; linarith
    · rintro ⟨⟨_, a⟩, b, _⟩; linarith
    · rintro ⟨⟨_, a⟩, b⟩; linarith
    · rintro ⟨⟨_, a⟩, b⟩; linarith
    · unfold calculate_price_options tierSelect
      split_ifs with h1 h2 h3 h4
      · decide
      · decide
      · decide
      · decide
      · exfalso
        rw [not_and_or] at h1 h2 h3
        rcases h1 with h1 | h1
        · exact h1 h0
        rcases h2 with h2 | h2
        · exact h2 (lt_of_not_le h1)
        rcases h3 with h3 | h3
        · exact h3 (lt_of_not_le h2)
        · exact h4 (lt_of_not_le h3)
  all_goals norm_num [calculate_price_options, tierSelect, pyInt]

/-- Witness for `tiers_partition_and_boundaries` at the concrete coverage
value 10. -/
theorem tiers_partition_and_boundaries_witness :
    (tier1Cond 10 ∨ tier2Cond 10 ∨ tier3Cond 10 ∨ tier4Cond 10) ∧
    ¬ (tier1Cond 10 ∧ tier2Cond 10) ∧ ¬ (tier1Cond 10 ∧ tier3Cond 10) ∧
    ¬ (tier1Cond 10 ∧ tier4Cond 10) ∧ ¬ (tier2Cond 10 ∧ tier3Cond 10) ∧
    ¬ (tier2Cond 10 ∧ tier4Cond 10) ∧ ¬ (tier3Cond 10 ∧ tier4Cond 10) ∧
    (calculate_price_options 10).tier_name ≠ "N/A" :=
  tiers_partition_and_boundaries.1 10 (by norm_num) (by norm_num)

/-- C2: for every coverage value, `paper_price = 1` and each final price is
the paper price plus the corresponding ink price. -/
theorem final_prices_additive :
    ∀ c : ℚ, (calculate_price_options c).paper_price = 1 ∧
      (calculate_price_options c).final_bw_price =
        (calculate_price_options c).paper_price +
          (calculate_price_options c).bw_ink_price ∧
      (calculate_price_options c).final_color_price =
        (calculate_price_options c).paper_price +
          (calculate_price_options c).color_ink_price := by
  intro c
  unfold calculate_price_options tierSelect
  split_ifs <;> norm_num [pyInt]

/-- C6: every negative coverage value falls through all four tier guards to
the defaults: tier "N/A" and zero ink prices (so both final prices equal the
paper price, 1). -/
theorem negative_coverage_na_default :
    ∀ c : ℚ, c < 0 → calculate_price_options c = ⟨1, "N/A", 0, 0, 1, 1⟩ := by
  intro c hc
  unfold calculate_price_options tierSelect
  split_ifs with h1 h2 h3 h4
  · exact absurd h1.1 (not_le.mpr hc)
  · exact absurd h2.1 (by linarith)
  · exact absurd h3.1 (by linarith)
  · exact absurd h4 (by linarith)
  · norm_num [pyInt]

/-- Witness for `negative_coverage_na_default` at coverage -1. -/
theorem negative_coverage_na_default_witness :
    calculate_price_options (-1) = ⟨1, "N/A", 0, 0, 1, 1⟩ :=
  negative_coverage_na_default (-1) (by norm_num)

/-- C7: `calculate_price_options` is deterministic: the output depends only
on the coverage value, so two calls with equal inputs agree. -/
theorem pricing_deterministic :
    ∀ c₁ c₂ : ℚ, c₁ = c₂ →
      calculate_price_options c₁ = calculate_price_options c₂ := by
  intro c₁ c₂ h
  rw [h]

/-- Witness for `pricing_deterministic`: two calls at coverage 10 agree. -/
theorem pricing_deterministic_witness :
    calculate_price_options 10 = calculate_price_options 10 :=
  pricing_deterministic 10 10 rfl

/-- C10: in every branch (the four tiers and the "N/A" fallthrough) the
color ink price is at least the B&W ink price and the final color price is
at least the final B&W price. -/
theorem color_price_dominates_bw :
    ∀ c : ℚ,
      (calculate_price_options c).bw_ink_price ≤
        (calculate_price_options c).color_ink_price ∧
      (calculate_price_options c).final_bw_price ≤
        (calculate_price_options c).final_color_price := by
  intro c
  unfold calculate_price_options tierSelect
  split_ifs <;> norm_num [pyInt]

/-- C3 counterexample: the claim "a pixel is counted as ink iff its
luminance is strictly below 240" is false.  On the 1×1 image whose pixel
has luminance exactly 240, `THRESH_BINARY_INV` with threshold 240 maps the
pixel to 255 (`src > thresh` fails), so the code counts it as ink and
reports coverage 100, while the strictly-below-240 rule counts zero ink
pixels and predicts coverage 0. -/
theorem coverage_threshold_claim_counterexample :
    ¬ (∀ (img : Image) (t : DocType) (c : ℚ),
        perform_technical_analysis img = AnalysisResult.ok t c →
        c = (specInkCountLtThreshold img : ℚ) /
              ((img.h * img.w : Nat) : ℚ) * 100) := by
  intro hclaim
  have h := hclaim gray240Image DocType.BW 100 gray240_analysis
  have hspec : specInkCountLtThreshold gray240Image = 0 := by
    norm_num [specInkCountLtThreshold, countPixels, Image.pixelList,
      gray240Image, List.range_succ, List.range_zero, bgr2gray,
      List.countP_cons, List.countP_nil]
    decide
  rw [hspec] at h
  norm_num [gray240Image] at h

/-- C3 amended: a pixel is counted as ink iff its luminance is at most 240
(strictly below 241), and for every successful analysis the coverage
percentage is the ink-pixel count divided by the total pixel count,
times 100. -/
theorem coverage_counts_luminance_le_threshold :
    ∀ (img : Image) (t : DocType) (c : ℚ),
      perform_technical_analysis img = AnalysisResult.ok t c →
      c = (countPixels img (fun px => decide (bgr2gray px ≤ 240)) : ℚ) /
            ((img.h * img.w : Nat) : ℚ) * 100 := by
  intro img t c hok
  obtain ⟨htot, _, hc⟩ := analysis_ok_inv img t c hok
  rw [hc, contentPixelCount,
    countPixels_congr img fun px => thresholdBinaryInv_ne_zero (bgr2gray px)]

/-- Witness for `coverage_counts_luminance_le_threshold` on the 1×1
luminance-240 image, whose analysis succeeds with coverage 100. -/
theorem coverage_counts_luminance_le_threshold_witness :
    (100 : ℚ) =
      (countPixels gray240Image (fun px => decide (bgr2gray px ≤ 240)) : ℚ) /
        ((gray240Image.h * gray240Image.w : Nat) : ℚ) * 100 :=
  coverage_counts_luminance_le_threshold gray240Image DocType.BW 100
    gray240_analysis

/-- C4: a successful analysis classifies the page as Color iff some pixel
has different green and red channel values (`uint8` wraparound subtraction
`g - r` is nonzero exactly when `g ≠ r`). -/
theorem color_iff_channel_difference :
    ∀ (img : Image) (t : DocType) (c : ℚ),
      perform_technical_analysis img = AnalysisResult.ok t c →
      (t = DocType.Color ↔
        ∃ i < img.h, ∃ j < img.w, (img.pix i j).g ≠ (img.pix i j).r) := by
  intro img t c hok
  obtain ⟨_, ht, _⟩ := analysis_ok_inv img t c hok
  rw [ht]
  by_cases hpos : 0 < colorPixelCount img
  · rw [if_pos hpos]
    simp only [true_iff]
    exact (color_count_pos_iff img).mp hpos
  · rw [if_neg hpos]
    constructor
    · intro hbw
      exact absurd hbw (by simp)
    · intro hex
      exact absurd ((color_count_pos_iff img).mpr hex) hpos

/-- Witness for `color_iff_channel_difference` on the 1×1 pure-green image,
classified Color because its pixel has `g = 255 ≠ 0 = r`. -/
theorem color_iff_channel_difference_witness :
    DocType.Color = DocType.Color ↔
      ∃ i < greenImage.h, ∃ j < greenImage.w,
        (greenImage.pix i j).g ≠ (greenImage.pix i j).r :=
  color_iff_channel_difference greenImage DocType.Color 100 greenImage_analysis

/-- C8: a nonempty all-white image (every pixel at maximum luminance 255)
yields coverage 0, and a nonempty all-black image (every pixel at
luminance 0) yields coverage 100; both are classified B&W. -/
theorem all_white_zero_all_black_hundred :
    (∀ img : Image, 0 < img.h → 0 < img.w →
      (∀ i j, i < img.h → j < img.w → img.pix i j = whitePixel) →
      perform_technical_analysis img = AnalysisResult.ok DocType.BW 0) ∧
    (∀ img : Image, 0 < img.h → 0 < img.w →
      (∀ i j, i < img.h → j < img.w → img.pix i j = blackPixel) →
      perform_technical_analysis img = AnalysisResult.ok DocType.BW 100) := by
  constructor
  · intro img hh hw hpx
    have htot : img.h * img.w ≠ 0 := Nat.mul_ne_zero hh.ne' hw.ne'
    have hcol : colorPixelCount img = 0 := by
      rw [colorPixelCount, countPixels, List.countP_eq_zero]
      intro px hmem
      obtain ⟨i, hi, j, hj, hpx2⟩ := mem_pixelList.mp hmem
      rw [← hpx2, hpx i j hi hj]
      decide
    have hcont : contentPixelCount img = 0 := by
      rw [contentPixelCount, countPixels, List.countP_eq_zero]
      intro px hmem
      obtain ⟨i, hi, j, hj, hpx2⟩ := mem_pixelList.mp hmem
      rw [← hpx2, hpx i j hi hj]
      decide
    unfold perform_technical_analysis
    rw [if_neg htot, hcol, hcont]
    norm_num
  · intro img hh hw hpx
    have htot : img.h * img.w ≠ 0 := Nat.mul_ne_zero hh.ne' hw.ne'
    have hcol : colorPixelCount img = 0 := by
      rw [colorPixelCount, countPixels, List.countP_eq_zero]
      intro px hmem
      obtain ⟨i, hi, j, hj, hpx2⟩ := mem_pixelList.mp hmem
      rw [← hpx2, hpx i j hi hj]
      decide
    have hcont : contentPixelCount img = img.h * img.w := by
      rw [contentPixelCount, countPixels, ← length_pixelList img,
        List.countP_eq_length]
      intro px hmem
      obtain ⟨i, hi, j, hj, hpx2⟩ := mem_pixelList.mp hmem
      rw [← hpx2, hpx i j hi hj]
      decide
    unfold perform_technical_analysis
    rw [if_neg htot, hcol, hcont]
    rw [div_self (by exact_mod_cast htot), one_mul]
    norm_num

/-- Witness for `all_white_zero_all_black_hundred` on 1×1 images. -/
theorem all_white_zero_all_black_hundred_witness :
    perform_technical_analysis white1 = AnalysisResult.ok DocType.BW 0 ∧
    perform_technical_analysis black1 = AnalysisResult.ok DocType.BW 100 :=
  ⟨all_white_zero_all_black_hundred.1 white1 one_pos one_pos
      fun _ _ _ _ => rfl,
    all_white_zero_all_black_hundred.2 black1 one_pos one_pos
      fun _ _ _ _ => rfl⟩

/-- C9: `perform_technical_analysis` always returns one of the two
dictionary shapes — success with doc type and coverage, or the bare
failure marker (which carries no further fields by construction) — and on
an image with zero pixels (the one input that raises inside the `try`
block) it returns exactly the failure marker. -/
theorem analysis_always_returns :
    (∀ img : Image,
      perform_technical_analysis img = AnalysisResult.failed ∨
      ∃ t c, perform_technical_analysis img = AnalysisResult.ok t c) ∧
    (∀ img : Image, img.h * img.w = 0 →
      perform_technical_analysis img = AnalysisResult.failed) := by
  constructor
  · intro img
    unfold perform_technical_analysis
    by_cases htot : img.h * img.w = 0
    · rw [if_pos htot]
      exact Or.inl rfl
    · rw [if_neg htot]
      exact Or.inr ⟨_, _, rfl⟩
  · intro img htot
    unfold perform_technical_analysis
    rw [if_pos htot]

/-- Witness for `analysis_always_returns` on the image with no pixels. -/
theorem analysis_always_returns_witness :
    perform_technical_analysis emptyImage = AnalysisResult.failed :=
  analysis_always_returns.2 emptyImage rfl

/-- C5 counterexample: on a two-page run whose second page fails, the failed
page is skipped in both grand totals (they equal the Tier 1 prices 2 and 3
of page 1 alone), but the reported "Total Pages Processed" is 2 — the full
PDF page count — not the count 1 of successfully analyzed pages. -/
theorem failed_page_in_reported_count_counterexample :
    (process_document_report
        [AnalysisResult.ok DocType.BW 10, AnalysisResult.failed]).grand_total_bw
      = 2 ∧
    (process_document_report
        [AnalysisResult.ok DocType.BW 10,
          AnalysisResult.failed]).grand_total_color = 3 ∧
    (process_document_report
        [AnalysisResult.ok DocType.BW 10, AnalysisResult.failed]).total_pages
      = 2 ∧
    ([AnalysisResult.ok DocType.BW 10,
        AnalysisResult.failed].countP analysisSuccess) = 1 ∧
    (process_document_report
        [AnalysisResult.ok DocType.BW 10, AnalysisResult.failed]).total_pages
      ≠ ([AnalysisResult.ok DocType.BW 10,
          AnalysisResult.failed].countP analysisSuccess) := by
  norm_num [process_document_report, pageStep, analysisSuccess,
    calculate_price_options, tierSelect, pyInt, List.countP_cons,
    List.countP_nil]

/-- C5 amended: a page that fails analysis contributes nothing to either
grand total — the totals over any page list equal the totals over its
successful pages alone — but the reported "Total Pages Processed" is the
full page count, failed pages included. -/
theorem failed_pages_skipped_in_totals :
    ∀ pages : List AnalysisResult,
      (process_document_report pages).grand_total_bw =
        (process_document_report
          (pages.filter analysisSuccess)).grand_total_bw ∧
      (process_document_report pages).grand_total_color =
        (process_document_report
          (pages.filter analysisSuccess)).grand_total_color ∧
      (process_document_report pages).total_pages = pages.length := by
  intro pages
  unfold process_document_report
  rw [foldl_pageStep_filter pages (0, 0)]
  exact ⟨rfl, rfl, rfl⟩
